import Mathlib

/-!
Shallow embedding of the template-matching / requirement-consolidation core of
the QA test-case generator (combination_detector.py, test_case_parser.py,
retrieval_agent.py, generation_agent.py), together with proofs of the spec's
testable properties about it.

Strings model Python `str`, `Nat`/`Int` model Python `int`, and `ℚ` models the
(real-valued) heuristic match scores.  External collaborators (the LLM call and
the RAG-context object) are modelled as opaque parameters, as the spec places
them out of scope.
-/

namespace QAAgent

/-! ### Python string primitives -/

/-- Python `pat in s` (substring containment, `str.__contains__`). -/
def containsSub (s pat : String) : Bool :=
  decide (pat.data <:+: s.data)

/-- Drop trailing whitespace characters, as the tail half of Python `str.strip()`. -/
def dropTrailingWs (l : List Char) : List Char :=
  (l.reverse.dropWhile Char.isWhitespace).reverse

/-- Python `str.strip()` (ASCII/whitespace stripping on both ends). -/
def pyStrip (s : String) : String :=
  String.mk (dropTrailingWs (s.data.dropWhile Char.isWhitespace))

/-- Python `str.title()` restricted to the alphanumeric/ASCII strings the code
applies it to: the first letter of each alphabetic run is uppercased, the rest
lowercased. -/
def pyTitleAux : List Char → Bool → List Char
  | [], _ => []
  | c :: cs, prevAlpha =>
    if c.isAlpha then
      (if prevAlpha then c.toLower else c.toUpper) :: pyTitleAux cs true
    else
      c :: pyTitleAux cs false

/-- Python `str.title()`. -/
def pyTitle (s : String) : String :=
  String.mk (pyTitleAux s.data false)

/-- Python `str.lower()` (per-character lowercasing, as `String.toLower`, but
defined over the character list). -/
def pyLower (s : String) : String :=
  String.mk (s.data.map Char.toLower)

/-- Python `str.upper()`. -/
def pyUpper (s : String) : String :=
  String.mk (s.data.map Char.toUpper)

/-- Python `str.startswith(pre)`. -/
def pyStartsWith (s pre : String) : Bool :=
  pre.data.isPrefixOf s.data

/-- Helper for `pySplitNl`: split a character list at every newline. -/
def splitNlAux : List Char → List Char → List String
  | [], acc => [String.mk acc.reverse]
  | c :: rest, acc =>
    if c = '\n' then String.mk acc.reverse :: splitNlAux rest []
    else splitNlAux rest (c :: acc)

/-- Python `str.split('\n')`. -/
def pySplitNl (s : String) : List String :=
  splitNlAux s.data []

/-! ### Business Rule Table (`EeroCombinationDetector.valid_combinations`) -/

/-- One catalog entry of the Business Rule Table (a `CombinationRule`). -/
structure Combo where
  id : Nat
  order_type : String
  customer_status : String
  segment : String
  truck_roll : String
  eero_type : String
  description : String
deriving Repr, DecidableEq, Inhabited

/-- The 31 combinations from `EeroCombinationDetector.valid_combinations`
(descriptions elided: no claim reads them, and they are only echoed into
report text). -/
def validCombinations : List Combo := [
  { id := 1, order_type := "install", customer_status := "new", segment := "residential", truck_roll := "with", eero_type := "eero", description := "Install New Residential Truck roll Eero" },
  { id := 2, order_type := "install", customer_status := "new", segment := "residential", truck_roll := "with", eero_type := "eero_plus", description := "Install New Residential Truck roll Eero Plus" },
  { id := 3, order_type := "install", customer_status := "new", segment := "residential", truck_roll := "no", eero_type := "eero", description := "Install New Residential No Truck roll Eero" },
  { id := 4, order_type := "install", customer_status := "new", segment := "residential", truck_roll := "no", eero_type := "eero_plus", description := "Install New Residential No Truck roll Eero Plus" },
  { id := 5, order_type := "install", customer_status := "new", segment := "residential", truck_roll := "with", eero_type := "eero_additional", description := "Install New Residential Truck roll Eero + Additional Eero Device" },
  { id := 6, order_type := "install", customer_status := "new", segment := "residential", truck_roll := "with", eero_type := "eero_plus_additional", description := "Install New Residential Truck roll Eero Plus + Additional Eero Device" },
  { id := 7, order_type := "install", customer_status := "new", segment := "residential", truck_roll := "no", eero_type := "eero_additional", description := "Install New Residential No Truck roll Eero + Additional Eero Device" },
  { id := 8, order_type := "install", customer_status := "new", segment := "residential", truck_roll := "no", eero_type := "eero_plus_additional", description := "Install New Residential No Truck roll Eero Plus + Additional Eero Device" },
  { id := 9, order_type := "install", customer_status := "new", segment := "business", truck_roll := "with", eero_type := "eero", description := "Install New Business Truck roll Eero" },
  { id := 10, order_type := "install", customer_status := "new", segment := "business", truck_roll := "no", eero_type := "eero", description := "Install New Business No Truck roll Eero" },
  { id := 11, order_type := "install", customer_status := "new", segment := "business", truck_roll := "with", eero_type := "eero_additional", description := "Install New Business Truck roll Eero + Additional Eero Device" },
  { id := 12, order_type := "install", customer_status := "new", segment := "business", truck_roll := "no", eero_type := "eero_additional", description := "Install New Business No Truck roll Eero + Additional Eero Device" },
  { id := 13, order_type := "cos", customer_status := "existing_hsd", segment := "residential", truck_roll := "with", eero_type := "add_eero", description := "Change of Service Existing HSD customer Residential Truck roll Add Eero Service" },
  { id := 14, order_type := "cos", customer_status := "existing_hsd", segment := "residential", truck_roll := "no", eero_type := "add_eero", description := "Change of Service Existing HSD customer Residential No Truck roll Add Eero Service" },
  { id := 15, order_type := "cos", customer_status := "existing_hsd_eero", segment := "residential", truck_roll := "no", eero_type := "remove_eero", description := "Change of Service Existing HSD customer with Eero Residential No Truck roll Remove Eero Service" },
  { id := 16, order_type := "cos", customer_status := "existing_hsd_eero", segment := "residential", truck_roll := "no", eero_type := "add_additional", description := "Change of Service Existing HSD customer with Eero Residential No Truck roll Add Additional Eero Device" },
  { id := 17, order_type := "cos", customer_status := "existing_hsd_eero_additional", segment := "residential", truck_roll := "no", eero_type := "remove_device_not_gateway", description := "Change of Service Existing HSD customer with Eero and additional Eero Residential No Truck roll Remove Eero device which is gateway No" },
  { id := 18, order_type := "cos", customer_status := "existing_hsd_eero_additional", segment := "residential", truck_roll := "no", eero_type := "remove_device_gateway", description := "Change of Service Existing HSD customer with Eero and additional Eero Residential No Truck roll Remove Eero device which is gateway Yes" },
  { id := 19, order_type := "cos", customer_status := "existing_hsd_eero_additional", segment := "residential", truck_roll := "no", eero_type := "remove_eero_service_device", description := "Change of Service Existing HSD customer with Eero and additional Eero Residential No Truck roll Remove Eero service along with Device" },
  { id := 20, order_type := "cos", customer_status := "existing_hsd", segment := "residential", truck_roll := "with", eero_type := "add_eero_plus", description := "Change of Service Existing HSD customer Residential Truck roll Add Eero Plus Service" },
  { id := 21, order_type := "cos", customer_status := "existing_hsd", segment := "residential", truck_roll := "no", eero_type := "add_eero_plus", description := "Change of Service Existing HSD customer Residential No Truck roll Add Eero Plus Service" },
  { id := 22, order_type := "cos", customer_status := "existing_hsd_eero_plus", segment := "residential", truck_roll := "no", eero_type := "remove_eero_plus", description := "Change of Service Existing HSD customer with Eero Plus Residential No Truck roll Remove Eero Plus Service" },
  { id := 23, order_type := "cos", customer_status := "existing_hsd_eero", segment := "residential", truck_roll := "no", eero_type := "add_eero_plus_upgrade", description := "Change of Service Existing HSD customer with Eero Residential No Truck roll Add Eero Plus Service" },
  { id := 24, order_type := "cos", customer_status := "existing_hsd_eero_plus", segment := "residential", truck_roll := "no", eero_type := "remove_eero_eero_plus", description := "Change of Service Existing HSD customer with Eero Plus Residential No Truck roll Remove Eero and Eero Plus Service" },
  { id := 25, order_type := "cos", customer_status := "existing_hsd", segment := "business", truck_roll := "with", eero_type := "add_eero", description := "Change of Service Existing HSD customer Business Truck roll Add Eero Service" },
  { id := 26, order_type := "cos", customer_status := "existing_hsd", segment := "business", truck_roll := "no", eero_type := "add_eero", description := "Change of Service Existing HSD customer Business No Truck roll Add Eero Service" },
  { id := 27, order_type := "cos", customer_status := "existing_hsd_eero", segment := "business", truck_roll := "no", eero_type := "remove_eero", description := "Change of Service Existing HSD customer with Eero Business No Truck roll Remove Eero Service" },
  { id := 28, order_type := "cos", customer_status := "existing_hsd_eero", segment := "business", truck_roll := "no", eero_type := "add_additional", description := "Change of Service Existing HSD customer with Eero Business No Truck roll Add Additional Eero Device" },
  { id := 29, order_type := "cos", customer_status := "existing_hsd_eero_additional", segment := "business", truck_roll := "no", eero_type := "remove_device_not_gateway", description := "Change of Service Existing HSD customer with Eero and additional Eero Business No Truck roll Remove Eero device which is gateway No" },
  { id := 30, order_type := "cos", customer_status := "existing_hsd_eero_additional", segment := "business", truck_roll := "no", eero_type := "remove_device_gateway", description := "Change of Service Existing HSD customer with Eero and additional Eero Business No Truck roll Remove Eero device which is gateway Yes" },
  { id := 31, order_type := "cos", customer_status := "existing_hsd_eero_additional", segment := "business", truck_roll := "no", eero_type := "remove_eero_along_device", description := "Change of service Existing HSD customer with Eero and additional Eero Business No Truck roll Remove Eero service along with Device " }
]

/-- `EeroCombinationDetector.service_code_mapping`. -/
def serviceCodeMapping : List (String × String) := [
  ("eero", "HE008"),
  ("eero_plus", "HE009"),
  ("eero_secure", "HE010"),
  ("eero_additional", "HE008_MULTI"),
  ("eero_plus_additional", "HE009_MULTI"),
  ("add_eero", "HE008"),
  ("add_eero_plus", "HE009"),
  ("remove_eero", "REMOVE_HE008"),
  ("remove_eero_plus", "REMOVE_HE009"),
  ("add_additional", "ADD_HE008_DEVICE"),
  ("remove_device_not_gateway", "REMOVE_DEVICE_NON_GATEWAY"),
  ("remove_device_gateway", "REMOVE_DEVICE_GATEWAY"),
  ("remove_eero_service_device", "REMOVE_HE008_ALL")
]

/-- `self.service_code_mapping.get(key, default)`. -/
def serviceCodeFor (eeroType : String) : String :=
  (serviceCodeMapping.lookup eeroType).getD "HE008"

/-! ### Story analysis (`_analyze_user_story`) -/

/-- The analysis dictionary produced by `_analyze_user_story`. -/
structure StoryAnalysis where
  order_types : List String
  customer_segments : List String
  truck_roll_preference : String
  eero_types : List String
  specific_scenarios : List String
  device_lifecycle_required : Bool
  association_process_detected : Bool
deriving Repr, DecidableEq, Inhabited

/-- `_analyze_user_story(story)`; `story` is the already-lowercased user story. -/
def analyzeUserStory (story : String) : StoryAnalysis :=
  let orderInstall := if ["install", "new customer", "first time", "setup"].any (containsSub story) then ["install"] else []
  let orderCos := if ["change", "modify", "add", "remove", "upgrade", "existing", "cos"].any (containsSub story) then ["cos"] else []
  let orderTypes0 := orderInstall ++ orderCos
  let orderTypes := if orderTypes0 = [] then ["install", "cos"] else orderTypes0
  let segResi := if ["residential", "resi", "home"].any (containsSub story) then ["residential"] else []
  let segBusi := if ["business", "commercial", "busi"].any (containsSub story) then ["business"] else []
  let segs0 := segResi ++ segBusi
  let segs := if segs0 = [] then ["residential", "business"] else segs0
  let truckPref :=
    if ["no truck", "self install", "without technician"].any (containsSub story) then "no"
    else if ["truck roll", "technician", "installation visit"].any (containsSub story) then "with"
    else "both"
  let assoc := ["association", "associate", "binding", "bind", "device management", "account-to-device", "partner account"].any (containsSub story)
  let scenarios := if assoc then ["device_association", "device_removal", "lifecycle_management"] else []
  let eeroPlus := if ["plus", "premium", "enhanced"].any (containsSub story) then ["eero_plus", "add_eero_plus"] else []
  let eeroAdd := if ["additional", "multiple", "mesh", "more than one"].any (containsSub story) then ["eero_additional", "add_additional"] else []
  let eeroRemove := if ["remove", "delete"].any (containsSub story) then ["remove_eero", "remove_device_not_gateway", "remove_device_gateway"] else []
  let eeroBase := eeroPlus ++ eeroAdd ++ eeroRemove
  let eeroBasic := if ["basic", "standard"].any (containsSub story) || eeroBase = [] then ["eero", "add_eero"] else []
  let eero0 := eeroBase ++ eeroBasic
  -- when the association process is detected the removal scenarios are appended;
  -- the subsequent `if not customer_segments` re-default is a no-op because
  -- `segs` is already nonempty at that point
  let eero := if assoc then eero0 ++ ["remove_device_not_gateway", "remove_device_gateway", "remove_eero_along_device"] else eero0
  { order_types := orderTypes
    customer_segments := segs
    truck_roll_preference := truckPref
    eero_types := eero
    specific_scenarios := scenarios
    device_lifecycle_required := assoc
    association_process_detected := assoc }

/-! ### Count inference (`determine_test_case_count`) -/

def fullCoverageKeywords : List String := [
  "comprehensive", "complete", "all scenarios", "full coverage", "entire workflow",
  "end-to-end", "all combinations", "thorough testing", "complete validation",
  "all test cases", "complete test suite", "exhaustive", "full suite"]

def associationCountKeywords : List String := [
  "association process", "retrieve orders", "account to device", "partner account id",
  "eero cloud", "customer account", "device association", "process built",
  "cable one to eero", "association", "comprehensive device testing"]

def criticalKeywords : List String := [
  "critical", "important", "priority", "business critical", "production",
  "essential", "mandatory", "required", "compliance", "validation"]

def missingComboKeywords : List String := [
  "device removal", "remove device", "device lifecycle", "gateway removal",
  "service removal", "equipment removal"]

/-- The complexity score accumulated by `determine_test_case_count` when neither
keyword family short-circuits the count to 31 (`len(set(...))` is the number of
distinct eero types). -/
def complexityScore (storyLower : String) (analysis : StoryAnalysis) : Nat :=
  (if 2 ≤ analysis.customer_segments.length then 3 else 1) +
  (if 2 ≤ analysis.order_types.length then 3 else 1) +
  (if analysis.device_lifecycle_required then 4 else 0) +
  (if analysis.association_process_detected then 3 else 0) +
  (if 4 ≤ analysis.eero_types.eraseDups.length then 3
   else if 2 ≤ analysis.eero_types.eraseDups.length then 2 else 1) +
  (if criticalKeywords.any (containsSub storyLower) then 2 else 0) +
  (if missingComboKeywords.any (containsSub storyLower) then 2 else 0)

/-- `determine_test_case_count(user_story, story_analysis)`. -/
def determineTestCaseCount (userStory : String) (storyAnalysis : Option StoryAnalysis) : Nat :=
  let storyLower := pyLower userStory
  let analysis := storyAnalysis.getD (analyzeUserStory storyLower)
  if fullCoverageKeywords.any (containsSub storyLower) then 31
  else if associationCountKeywords.any (containsSub storyLower) then 31
  else
    let score := complexityScore storyLower analysis
    if 15 ≤ score then min 31 (max 20 score)
    else if 12 ≤ score then min 15 (max 10 score)
    else if 8 ≤ score then min 12 (max 6 score)
    else if 5 ≤ score then min 8 (max 4 score)
    else max 3 score

/-! ### Match scoring (`_calculate_match_score`) -/

/-- The numerator, over the common denominator 20, of the score computed by
`_calculate_match_score`: the source's float constants 0.25, 0.2, 0.3, 0.15,
0.4 are the exact rationals 5/20, 4/20, 6/20, 3/20, 8/20, and all additions
performed by the source are carried out on these numerators. -/
def matchScoreNum (combo : Combo) (analysis : StoryAnalysis) : ℤ :=
  let sOrder : ℤ := if combo.order_type ∈ analysis.order_types then 5 else 0
  let sSeg : ℤ := if combo.segment ∈ analysis.customer_segments then 5 else 0
  let sTruck : ℤ :=
    if analysis.truck_roll_preference = "both" ∨ combo.truck_roll = analysis.truck_roll_preference
    then 4 else 0
  let sEero : ℤ :=
    if combo.eero_type ∈ analysis.eero_types then 6
    else if analysis.eero_types.any (fun et => containsSub combo.eero_type et) then 3
    else 0
  let sBoost : ℤ :=
    if analysis.association_process_detected then
      (if containsSub combo.eero_type "remove" then 8
       else if combo.order_type = "cos" then 4 else 0)
    else 0
  let sBusi : ℤ :=
    if analysis.device_lifecycle_required ∧ combo.segment = "business" then 3 else 0
  sOrder + sSeg + sTruck + sEero + sBoost + sBusi

/-- `_calculate_match_score(combo, analysis, rag_insights)`; the `rag_insights`
argument is unused by the source body and therefore omitted. -/
def calculateMatchScore (combo : Combo) (analysis : StoryAnalysis) : ℚ :=
  mkRat (matchScoreNum combo analysis) 20

/-! ### Detection and `detect_combinations_from_story` -/

/-- One detected-combination dictionary as appended by
`detect_combinations_from_story`. -/
structure Detection where
  combination : Combo
  match_score : ℚ
  service_code : String
  rag_context : String
deriving Repr, DecidableEq, Inhabited

/-- Descending order on match score, as used by
`detected_combinations.sort(key=..., reverse=True)`. -/
def detGE (a b : Detection) : Prop := b.match_score ≤ a.match_score

instance : DecidableRel detGE := fun a b =>
  inferInstanceAs (Decidable (b.match_score ≤ a.match_score))

instance : IsTotal Detection detGE := ⟨fun x y => le_total y.match_score x.match_score⟩

instance : IsTrans Detection detGE := ⟨fun _ _ _ h1 h2 => le_trans h2 h1⟩

/-- One default detection built inside `_get_default_combinations`. -/
def defaultDetection (orderType segment eeroType : String) : Detection :=
  { combination :=
      { id := 999
        order_type := orderType
        customer_status := if orderType = "install" then "new" else "existing_hsd"
        segment := segment
        truck_roll := "with"
        eero_type := eeroType
        description := "Default " ++ orderType ++ " " ++ segment ++ " " ++ eeroType }
    match_score := mkRat 1 2
    service_code := serviceCodeFor eeroType
    rag_context := "" }

/-- `_get_default_combinations(analysis, rag_insights, requested_count)`; the
`rag_insights` argument is unused by the source body and therefore omitted. -/
def getDefaultCombinations (analysis : StoryAnalysis) (requestedCount : Nat) : List Detection :=
  (analysis.order_types.flatMap fun ot =>
    analysis.customer_segments.flatMap fun seg =>
      (["eero", "eero_plus"].take 2).map fun et => defaultDetection ot seg et).take requestedCount

/-- The thresholded (unsorted) detection list built by the main loop of
`detect_combinations_from_story`. -/
def thresholdedDetections (analysis : StoryAnalysis) (ragPurpose : String) : List Detection :=
  validCombinations.filterMap fun combo =>
    let ms := calculateMatchScore combo analysis
    if mkRat 2 5 < ms then
      some { combination := combo
             match_score := ms
             service_code := serviceCodeFor combo.eero_type
             rag_context := ragPurpose }
    else none

/-- The tail of `detect_combinations_from_story` once the story analysis and
the requested count are fixed: threshold, sort descending, fall back to the
synthesized defaults when nothing matched, and slice to twice the count. -/
def detectFromAnalysis (analysis : StoryAnalysis) (rc : Nat) (ragPurpose : String) :
    List Detection :=
  let detected := (thresholdedDetections analysis ragPurpose).insertionSort detGE
  let final := if detected = [] then getDefaultCombinations analysis rc else detected
  final.take (rc * 2)

/-- `detect_combinations_from_story(user_story, requested_count)`.  `ragPurpose`
stands for the external RAG collaborator's `business_purpose` string, which is
only copied into the detections. -/
def detectCombinationsFromStory (userStory : String) (requestedCount : Option Nat)
    (ragPurpose : String) : List Detection :=
  let storyLower := pyLower userStory
  let analysis := analyzeUserStory storyLower
  let rc := match requestedCount with
    | some n => n
    | none => determineTestCaseCount userStory (some analysis)
  detectFromAnalysis analysis rc ragPurpose

/-! ### Consolidation (`get_combination_requirements`) -/

/-- The `scenario_map` used for the critical ids 29-31 inside
`get_combination_requirements`. -/
def scenarioMap : List (String × String) := [
  ("remove_device_not_gateway", "WithAdditionalEeroBusinessRemoveDeviceGatewayNo"),
  ("remove_device_gateway", "WithAdditionalEeroBusinessRemoveDeviceGatewayYes"),
  ("remove_eero_along_device", "WithAdditionalEeroBusinessRemoveEeroServiceDevice"),
  ("remove_eero_service_device", "WithAdditionalEeroBusinessRemoveEeroServiceDevice")
]

/-- "RESI" if combo["segment"] == "residential" else "BUSI". -/
def customerTypeOf (combo : Combo) : String :=
  if combo.segment = "residential" then "RESI" else "BUSI"

/-- "With" if combo["truck_roll"] == "with" else "No". -/
def truckRollTypeOf (combo : Combo) : String :=
  if combo.truck_roll = "with" then "With" else "No"

/-- The critical "missing" CombinationRule ids that receive their own grouping key. -/
def criticalIds : List Nat := [29, 30, 31]

/-- The grouping key (`group_key`) built per detection by
`get_combination_requirements`. -/
def groupKey (combo : Combo) : String :=
  let base := customerTypeOf combo ++ "-" ++ combo.order_type ++ "-" ++ truckRollTypeOf combo ++ "Truck"
  if combo.id ∈ criticalIds then
    let scenarioDesc := (scenarioMap.lookup combo.eero_type).getD (pyTitle (combo.eero_type.replace "_" ""))
    base ++ "-" ++ scenarioDesc
  else
    base

/-- One value of the `requirement_groups` dictionary. -/
structure ReqGroup where
  key : String
  customer_type : String
  scenario_type : String
  truck_roll_type : String
  count_needed : Nat
  priority : String
  combinations : List Detection
deriving Repr, DecidableEq, Inhabited

/-- The fresh empty group inserted by `if group_key not in requirement_groups`. -/
def emptyGroup (combo : Combo) (key : String) : ReqGroup :=
  { key := key
    customer_type := customerTypeOf combo
    scenario_type := combo.order_type
    truck_roll_type := truckRollTypeOf combo
    count_needed := 0
    priority := "high"
    combinations := [] }

/-- Insert an empty group for `key` when no group with that key exists yet. -/
def ensureGroup (groups : List ReqGroup) (combo : Combo) (key : String) : List ReqGroup :=
  if groups.any (fun g => g.key = key) then groups
  else groups ++ [emptyGroup combo key]

/-- `count_needed += 1` and `combinations.append(...)` on one group. -/
def bumpGroup (d : Detection) (g : ReqGroup) : ReqGroup :=
  { g with count_needed := g.count_needed + 1, combinations := g.combinations ++ [d] }

/-- One iteration of the grouping loop in `get_combination_requirements`:
insert an empty group for the detection's key if absent, then increment its
count and append the detection.  The Python `dict` preserves insertion order,
so it is modelled as an association list. -/
def addDetection (groups : List ReqGroup) (d : Detection) : List ReqGroup :=
  let key := groupKey d.combination
  (ensureGroup groups d.combination key).map fun g =>
    if g.key = key then bumpGroup d g else g

/-- The populated `requirement_groups`, in insertion order. -/
def requirementGroups (detectedCombinations : List Detection) : List ReqGroup :=
  detectedCombinations.foldl addDetection []

/-- The `TestCaseRequirement` record as populated by
`get_combination_requirements` (base fields plus the dynamically attached
metadata fields). -/
structure Requirement where
  customer_type : String
  scenario_type : String
  truck_roll_type : String
  count_needed : Nat
  priority : String
  descriptive_name : String
  combination_id : Nat
  eero_type : String
  service_code : String
  customer_status : String
  description : String
  match_score : ℚ
  exact_combination_description : String
  all_combinations : List Detection
deriving Repr, DecidableEq, Inhabited

/-- Conversion of one group to a `TestCaseRequirement`; the metadata comes from
the first combination in the group (`group_data["combinations"][0]`). -/
def requirementOfGroup (g : ReqGroup) : Requirement :=
  let firstDet := g.combinations.headI
  let combo := firstDet.combination
  { customer_type := g.customer_type
    scenario_type := g.scenario_type
    truck_roll_type := g.truck_roll_type
    count_needed := g.count_needed
    priority := g.priority
    descriptive_name := g.key
    combination_id := combo.id
    eero_type := combo.eero_type
    service_code := firstDet.service_code
    customer_status := combo.customer_status
    description := "Consolidated: " ++ toString g.combinations.length ++ " combinations for " ++ g.key
    match_score := firstDet.match_score
    exact_combination_description := combo.description
    all_combinations := g.combinations }

/-- `get_combination_requirements(detected_combinations)`. -/
def getCombinationRequirements (detectedCombinations : List Detection) : List Requirement :=
  (requirementGroups detectedCombinations).map requirementOfGroup

/-! ### Template Store: filename metadata (`TestCaseParser`) -/

/-- `_extract_customer_type(filename)`. -/
def extractCustomerType (filename : String) : String :=
  if containsSub (pyUpper filename) "RESI" then "RESI" else "BUSI"

/-- `_extract_scenario_type(filename)`. -/
def extractScenarioType (filename : String) : String :=
  if containsSub (pyLower filename) "cos" then "cos" else "install"

/-- The explicit "No" truck-roll marker substrings. -/
def noTruckMarkers : List String := ["no truckroll", "no truck roll"]

/-- The explicit "With" truck-roll marker substrings. -/
def withTruckMarkers : List String := ["with truckroll", "with truck roll", "w truck roll"]

/-- `_extract_truck_roll_type(filename)`. -/
def extractTruckRollType (filename : String) : String :=
  let fl := (pyLower filename)
  if noTruckMarkers.any (containsSub fl) then "No"
  else if withTruckMarkers.any (containsSub fl) then "With"
  else if containsSub fl "cos" then "No"
  else "With"

/-! ### Template Store: step extraction (`TestCaseParser._parse_steps`) -/

/-- One parsed step dictionary. -/
structure StepRec where
  step_number : String
  action : String
  expected_result : String
deriving Repr, DecidableEq, Inhabited

/-- Matching of one already-stripped line against the three step patterns
`^(\d+)\.\s*$`, `^(\d+)\.\s*(.+)` and `^\s*(\d+)\s*\.\s*(.+)`, tried in this
order; returns the step number and the (possibly empty) inline content.  The
third pattern's leading `\s*` is vacuous because the line is stripped. -/
def matchStep (line : String) : Option (String × String) :=
  let l := line.data
  let digits := l.takeWhile Char.isDigit
  let rest := l.dropWhile Char.isDigit
  if digits = [] then none
  else
    match rest with
    | '.' :: rest2 =>
      -- patterns 1 and 2: on a stripped line, content is whatever follows the
      -- greedy `\s*` (empty iff pattern 1 matched)
      some (String.mk digits, String.mk (rest2.dropWhile Char.isWhitespace))
    | _ =>
      -- pattern 3: `\s*` between the digits and the dot, then `.+` (nonempty)
      let rest2 := rest.dropWhile Char.isWhitespace
      match rest2 with
      | '.' :: rest3 =>
        let content := rest3.dropWhile Char.isWhitespace
        if content = [] then none else some (String.mk digits, String.mk content)
      | _ => none

/-- The leftmost match of `kw\s+(.+?)(?:\.|$)` (as in `re.search`) against a
character list, returning the captured group: the first keyword occurrence
followed by at least one whitespace character; the lazy group then runs from
the first non-whitespace character up to (excluding) the first later `'.'`, or
to the end.  When nothing follows the whitespace run, backtracking inside
`\s+` makes the group a single whitespace character (needs a run of length at
least two). -/
def findKwMatch (kw : List Char) : List Char → Option (List Char)
  | [] => none
  | l@(_ :: rest) =>
    if kw.isPrefixOf l then
      let after := l.drop kw.length
      let w := after.takeWhile Char.isWhitespace
      let content := after.dropWhile Char.isWhitespace
      if w.length = 0 then findKwMatch kw rest
      else if content = [] then
        if 2 ≤ w.length then some [(w.getLast?).getD ' ']
        else findKwMatch kw rest
      else
        some (content.take 1 ++ (content.drop 1).takeWhile (· ≠ '.'))
    else findKwMatch kw rest

/-- The expected-result extraction pass over a step's full action text. -/
def extractExpected (fullAction : String) : String :=
  let lower := pyLower fullAction
  if ["verify", "check", "ensure", "confirm", "validate"].any (containsSub lower) then
    match ["verify", "check", "ensure", "confirm", "validate"].findSome?
        (fun kw => findKwMatch kw.data lower.data) with
    | some g => pyStrip (String.mk g)
    | none => ""
  else ""

/-- The inner look-ahead loop of `_parse_steps`: starting after a step-marker
line, collect the stripped nonempty non-marker lines of the step body (blank
lines are skipped without counting against the 50-line bound) and return them
together with the unconsumed remainder. -/
def collectBody (fuel : Nat) : List String → List String × List String
  | [] => ([], [])
  | l :: ls =>
    if fuel = 0 then ([], l :: ls)
    else
      let s := pyStrip l
      if s = "" then collectBody fuel ls
      else if (matchStep s).isSome then ([], l :: ls)
      else
        let res := collectBody (fuel - 1) ls
        (s :: res.1, res.2)

/-- The flush of `current_step` performed before opening a new step and at end
of input: kept only when both the dictionary and its action text are truthy. -/
def flushStep : Option StepRec → List StepRec
  | none => []
  | some st => if st.action = "" then [] else [st]

/-- The outer line loop of `_parse_steps`, with an explicit fuel argument for
structural recursion; every iteration consumes at least one input line, so
`fuel = lines.length` (as supplied by `parseSteps`) never runs out. -/
def parseLoop : Nat → List String → Bool → Option StepRec → List StepRec → List StepRec
  | _, [], _, cur, acc => acc ++ flushStep cur
  | 0, _ :: _, _, cur, acc => acc ++ flushStep cur
  | fuel + 1, l :: ls, inSteps, cur, acc =>
    let s := pyStrip l
    if containsSub s "Test_steps:" then parseLoop fuel ls true cur acc
    else if inSteps = false ∨ s = "" then parseLoop fuel ls inSteps cur acc
    else
      match matchStep s with
      | some (num, content) =>
        let acc' := acc ++ flushStep cur
        let initLines : List String := if content = "" then [] else [content]
        let res := collectBody 50 ls
        let fullAction := pyStrip (String.intercalate " " (initLines ++ res.1))
        parseLoop fuel res.2 inSteps
          (some { step_number := num, action := fullAction,
                  expected_result := extractExpected fullAction }) acc'
      | none => parseLoop fuel ls inSteps cur acc

/-- `_parse_steps` applied to an already-split list of lines. -/
def parseStepsLines (lines : List String) : List StepRec :=
  parseLoop lines.length lines false none []

/-- `_parse_steps(content)`. -/
def parseSteps (content : String) : List StepRec :=
  parseStepsLines (pySplitNl content)

/-! ### TestCase records and the Template Selector -/

/-- The `TestCase` record (fields not read by any modelled code path —
`context`, `template_sources`, `generation_reasoning` — are omitted). -/
structure TestCase where
  id : String
  title : String
  customer_type : String
  customer_status : String
  scenario_type : String
  truck_roll_type : String
  content : String
  steps : List StepRec
  is_generated : Bool
deriving Repr, DecidableEq, Inhabited

/-- Descending order on the score of a scored template pair. -/
def pairScoreGE (a b : ℤ × TestCase) : Prop := b.1 ≤ a.1

instance : DecidableRel pairScoreGE := fun a b =>
  inferInstanceAs (Decidable (b.1 ≤ a.1))

instance : IsTotal (ℤ × TestCase) pairScoreGE := ⟨fun x y => le_total y.1 x.1⟩

instance : IsTrans (ℤ × TestCase) pairScoreGE := ⟨fun _ _ _ h1 h2 => le_trans h2 h1⟩

/-- Descending order on step count, as used by the
`sorted(matching_cases, key=lambda tc: len(tc.steps), reverse=True)` fallback. -/
def stepCountGE (a b : TestCase) : Prop := b.steps.length ≤ a.steps.length

instance : DecidableRel stepCountGE := fun a b =>
  inferInstanceAs (Decidable (b.steps.length ≤ a.steps.length))

instance : IsTotal TestCase stepCountGE := ⟨fun x y => le_total y.steps.length x.steps.length⟩

instance : IsTrans TestCase stepCountGE := ⟨fun _ _ _ h1 h2 => le_trans h2 h1⟩

/-- `_score_template_completeness` for one template (the requirement and user
story arguments are unused by the scoring body). -/
def scoreTemplateCompleteness (tc : TestCase) : ℤ :=
  let contentLower := pyLower tc.content
  let stepCount := tc.steps.length
  let sComplete : ℤ :=
    if 12 ≤ stepCount then 50
    else if 10 ≤ stepCount then 45
    else if 8 ≤ stepCount then 40
    else if 6 ≤ stepCount then 30
    else 15
  -- `sum(len(step.action))/max(1, len(steps))` as an exact rational
  let avgLen : ℚ := mkRat ((tc.steps.map (fun st => st.action.length)).sum : ℤ) (max 1 stepCount)
  let sDetail : ℤ :=
    if 100 < avgLen then 20 else if 60 < avgLen then 15 else if 30 < avgLen then 10 else 5
  let withResults := (tc.steps.filter (fun st => pyStrip st.expected_result ≠ "")).length
  -- `int(result_coverage * 15)` where `result_coverage = withResults/max(1, len)`;
  -- the value is nonnegative, so Python truncation agrees with the floor
  let sCoverage : ℤ := Rat.floor (mkRat (15 * withResults : ℤ) (max 1 stepCount))
  let indicators := ["acsr", "customer central", "order", "verification", "expected result"]
  let sWorkflow : ℤ := min 15 (3 * ((indicators.filter (containsSub contentLower)).length : ℤ))
  sComplete + sDetail + sCoverage + sWorkflow

/-- `_score_template_completeness`: score each template, then sort descending
(`scored_cases.sort(key=lambda x: x[0], reverse=True)`, a stable sort). -/
def scoreTemplates (tcs : List TestCase) : List (ℤ × TestCase) :=
  ((tcs.map fun tc => (scoreTemplateCompleteness tc, tc))).insertionSort pairScoreGE

/-- The id-lookup loop building `selected_cases` from the LLM's selected ids. -/
def selectById (scored : List (ℤ × TestCase)) (ids : List String) : List TestCase :=
  ids.foldl
    (fun sel tcId =>
      match scored.find? (fun p => p.2.id = tcId ∧ p.2 ∉ sel) with
      | some p => sel ++ [p.2]
      | none => sel)
    []

/-- The exact-match filter opening `find_test_cases`. -/
def matchingTemplates (testCases : List TestCase) (req : Requirement) : List TestCase :=
  testCases.filter fun tc =>
    tc.customer_type = req.customer_type ∧ tc.scenario_type = req.scenario_type ∧
      tc.truck_roll_type = req.truck_roll_type ∧ tc.is_generated = false

/-- The completeness filter of `find_test_cases`: templates with at least 8
steps, or, when none exists, all matching templates sorted by descending step
count. -/
def completeTemplates (testCases : List TestCase) (req : Requirement) : List TestCase :=
  let matching := matchingTemplates testCases req
  let complete0 := matching.filter fun tc => 8 ≤ tc.steps.length
  if complete0 = [] then matching.insertionSort stepCountGE else complete0

/-- `RetrievalAgent.find_test_cases(requirement, user_story)`.  The LLM call is
the external collaborator: `llmResponse` is its raw response content, or
`none` when the call raises (the `except` path). -/
def findTestCases (testCases : List TestCase) (req : Requirement)
    (llmResponse : Option String) : List TestCase :=
  if matchingTemplates testCases req = [] then []
  else
    let scored := scoreTemplates (completeTemplates testCases req)
    if scored.length ≤ req.count_needed then scored.map (·.2)
    else
      match llmResponse with
      | none => (scored.take req.count_needed).map (·.2)
      | some resp =>
        let ids := ((pySplitNl (pyStrip resp)).map pyStrip).filter fun line =>
          line ≠ "" ∧ pyStartsWith line "TC_"
        let selected := selectById scored ids
        if req.count_needed ≤ selected.length then selected.take req.count_needed
        else (scored.take req.count_needed).map (·.2)

/-! ### Generation-time template choice (`_find_best_template_with_rag`) -/

/-- `_get_correct_service_code(requirement)`. -/
def getCorrectServiceCode (req : Requirement) : String :=
  if req.customer_type = "RESI" then
    if containsSub req.eero_type "plus" ∨ containsSub req.eero_type "premium" then "HE009"
    else if containsSub req.eero_type "secure" then "HE015"
    else "HE008"
  else
    if req.scenario_type = "cos" then
      if req.combination_id ∈ criticalIds ∨ containsSub req.eero_type "remove" then "BHSY5"
      else if containsSub req.eero_type "additional" then "BHSY6"
      else "BHSY5"
    else
      if containsSub req.eero_type "plus" then "BHSY2"
      else if containsSub req.eero_type "additional" then "BHSY3"
      else "BHSY1"

/-- The diversity penalty applied inside `_find_best_template_with_rag` to a
template whose id is in the used set. -/
def diversityPenalty (used : List String) : ℤ :=
  min 30 (5 * (used.length : ℤ))

/-- The score assigned to one template by `_find_best_template_with_rag`.
`combinationType` is the external RAG collaborator's `detected_combination`. -/
def ragTemplateScore (combinationType : String) (req : Requirement)
    (used : List String) (tc : TestCase) : ℤ :=
  let sCust : ℤ := if tc.customer_type = req.customer_type then 15 else 0
  let sScen : ℤ := if tc.scenario_type = req.scenario_type then 20 else 0
  let sTruck : ℤ := if tc.truck_roll_type = req.truck_roll_type then 5 else 0
  let cl := pyLower tc.content
  let sRag : ℤ :=
    if combinationType = "eero_plus" ∧ ["plus", "premium", "secure"].any (containsSub cl) then 40
    else if combinationType = "multiple_devices" ∧ ["multiple", "additional", "mesh"].any (containsSub cl) then 40
    else if combinationType = "base_eero" ∧ ¬ (["plus", "premium", "multiple"].any (containsSub cl) = true) then 30
    else if containsSub cl "eero" then 20
    else 0
  let sSteps : ℤ := if 8 < tc.steps.length then 10 else 0
  let sLen : ℤ := if 3000 < tc.content.length then 10 else 0
  let sPenalty : ℤ := if tc.id ∈ used then diversityPenalty used else 0
  let sCode : ℤ := if containsSub tc.content (getCorrectServiceCode req) then 5 else 0
  sCust + sScen + sTruck + sRag + sSteps + sLen - sPenalty + sCode

/-- `self._used_templates.add(id)` (the set is modelled as an
insertion-ordered duplicate-free list). -/
def addUsed (used : List String) (tcId : String) : List String :=
  if tcId ∈ used then used else used ++ [tcId]

/-- The post-selection trim `if len(self._used_templates) > 5: remove
next(iter(...))`; CPython's arbitrary set iteration order is modelled as
oldest-first. -/
def trimUsed (used : List String) : List String :=
  if 5 < used.length then used.tail else used

/-- `_find_best_template_with_rag(requirement, user_story)` as a state-passing
function over the used-template set.  `combinationType` is the RAG
collaborator's `detected_combination` value; nothing in the modelled body can
raise, so the `except` fallback to `_find_best_template_basic` is not a
reachable path of the model. -/
def findBestTemplateWithRag (testCases : List TestCase) (combinationType : String)
    (req : Requirement) (used : List String) : Option TestCase × List String :=
  let available := testCases.filter fun tc => tc.is_generated = false
  let scored := (available.map fun tc =>
    (ragTemplateScore combinationType req used tc, tc)).insertionSort pairScoreGE
  if scored = [] then (none, used)
  else
    match scored.find? (fun p => p.2.id ∉ used) with
    | some p => (some p.2, trimUsed (addUsed used p.2.id))
    | none =>
      let best := scored.headI
      let used0 := if available.length ≤ used.length then [] else used
      (some best.2, trimUsed (addUsed used0 best.2.id))

/-! ### Invariant predicates for the consolidation proofs -/

/-- Every detection stored in a group carries that group's key. -/
def KeysOk (groups : List ReqGroup) : Prop :=
  ∀ g ∈ groups, ∀ x ∈ g.combinations, groupKey x.combination = g.key

/-- Group keys are pairwise distinct (they are Python `dict` keys). -/
def NodupKeys (groups : List ReqGroup) : Prop :=
  (groups.map (fun g => g.key)).Nodup

/-- `count_needed` counts exactly the stored detections. -/
def CountsOk (groups : List ReqGroup) : Prop :=
  ∀ g ∈ groups, g.count_needed = g.combinations.length

/-- No group in the populated dictionary is empty. -/
def NonemptyOk (groups : List ReqGroup) : Prop :=
  ∀ g ∈ groups, g.combinations ≠ []

/-- Total number of detections stored across all groups. -/
def groupsSum (groups : List ReqGroup) : Nat :=
  (groups.map (fun g => g.combinations.length)).sum

/-- The eight combination dictionaries `_get_default_combinations` can build
from a story-derived analysis (order type × segment × the two default
variants). -/
def possibleDefaultCombos : List Combo :=
  ["install", "cos"].flatMap fun ot =>
    ["residential", "business"].flatMap fun seg =>
      ["eero", "eero_plus"].map fun et => (defaultDetection ot seg et).combination

/-- All combinations a detection produced by the detector can carry: a Business
Rule Table entry, or one of the synthesized defaults. -/
def sourcedCombos : List Combo :=
  validCombinations ++ possibleDefaultCombos

/-- The shape `_analyze_user_story` guarantees for its result: order types and
customer segments are nonempty sublists of the known enumerations. -/
def AnalysisWF (a : StoryAnalysis) : Prop :=
  a.order_types ⊆ ["install", "cos"] ∧ a.customer_segments ⊆ ["residential", "business"] ∧
    a.order_types ≠ [] ∧ a.customer_segments ≠ []

/-! ### Step-numbering apparatus for the parsing claims -/

/-- The integer value of a decimal digit string (the reading under which the
parsed `step_number` strings are compared as integers). -/
def stepNat (s : String) : Nat :=
  s.data.foldl (fun acc c => acc * 10 + (c.toNat - '0'.toNat)) 0

/-- The sequence numbers of a parsed step list, read as integers. -/
def stepNumbers (steps : List StepRec) : List Nat :=
  steps.map fun st => stepNat st.step_number

/-- The numbering property claimed for parsed Templates: sequence numbers are
strictly increasing and the first one is 1. -/
def claimStepNumbering (steps : List StepRec) : Prop :=
  List.Chain' (· < ·) (stepNumbers steps) ∧ (stepNumbers steps).head?.getD 1 = 1

/-- A `Test_steps:` section line "`num`. `body`" for one step. -/
def mkStepLines (items : List (String × String)) : List String :=
  items.map fun p => p.1 ++ ". " ++ p.2

/-- The line list of a file body: the `Test_steps:` marker followed by one
numbered line per step. -/
def mkTestStepsLines (items : List (String × String)) : List String :=
  "Test_steps:" :: mkStepLines items

/-- The step record the parser is expected to produce for one such line. -/
def stepOfItem (p : String × String) : StepRec :=
  { step_number := p.1, action := p.2, expected_result := extractExpected p.2 }

/-- Well-formedness of one step line "`num`. `body`": the line is stripped, is
recognised as a step marker with inline content `body`, does not contain the
section marker, and the body is stripped, nonempty, made of a nonempty digit
string and a body with no leading digits. -/
def lineOk (p : String × String) : Prop :=
  pyStrip (p.1 ++ ". " ++ p.2) = p.1 ++ ". " ++ p.2 ∧
  matchStep (p.1 ++ ". " ++ p.2) = some (p.1, p.2) ∧
  containsSub (p.1 ++ ". " ++ p.2) "Test_steps:" = false ∧
  pyStrip p.2 = p.2 ∧ p.2 ≠ ""

instance (p : String × String) : Decidable (lineOk p) :=
  inferInstanceAs (Decidable (pyStrip (p.1 ++ ". " ++ p.2) = p.1 ++ ". " ++ p.2 ∧
    matchStep (p.1 ++ ". " ++ p.2) = some (p.1, p.2) ∧
    containsSub (p.1 ++ ". " ++ p.2) "Test_steps:" = false ∧
    pyStrip p.2 = p.2 ∧ p.2 ≠ ""))

/-! ### Concrete fixtures used by witnesses and counterexamples -/

/-- A RESI/install/With-truck requirement needing one template. -/
def reqResiInstall : Requirement :=
  { customer_type := "RESI", scenario_type := "install", truck_roll_type := "With",
    count_needed := 1, priority := "high", descriptive_name := "RESI-install-WithTruck",
    combination_id := 1, eero_type := "eero", service_code := "HE008",
    customer_status := "new", description := "", match_score := 1,
    exact_combination_description := "", all_combinations := [] }

/-- A template that matches `reqResiInstall` exactly but has plain content. -/
def tcExactMatch : TestCase :=
  { id := "TC_exact", title := "exact", customer_type := "RESI", customer_status := "new",
    scenario_type := "install", truck_roll_type := "With",
    content := "basic workflow without keywords",
    steps := [{ step_number := "1", action := "do", expected_result := "" }],
    is_generated := false }

/-- A template for the opposite customer and scenario whose content carries the
product-variant vocabulary ("plus") and nine steps. -/
def tcContentHeavy : TestCase :=
  { id := "TC_heavy", title := "heavy", customer_type := "BUSI", customer_status := "existing",
    scenario_type := "cos", truck_roll_type := "No",
    content := "plus workflow",
    steps := (List.range 9).map fun i =>
      { step_number := toString (i + 1), action := "step", expected_result := "" },
    is_generated := false }

/-- A matching template with no steps at all. -/
def tcZeroSteps : TestCase :=
  { id := "TC_zero", title := "zero", customer_type := "RESI", customer_status := "new",
    scenario_type := "install", truck_roll_type := "With", content := "empty",
    steps := [], is_generated := false }

/-- A BUSI/cos/No-truck requirement needing one template. -/
def reqBusiCos : Requirement :=
  { customer_type := "BUSI", scenario_type := "cos", truck_roll_type := "No",
    count_needed := 1, priority := "high", descriptive_name := "BUSI-cos-NoTruck",
    combination_id := 26, eero_type := "add_eero", service_code := "HE008",
    customer_status := "existing_hsd", description := "", match_score := 1,
    exact_combination_description := "", all_combinations := [] }

/-- A non-generated template whose id sits in the used-template set. -/
def tcUsedFixture : TestCase :=
  { id := "TC_used", title := "used", customer_type := "RESI", customer_status := "new",
    scenario_type := "install", truck_roll_type := "With", content := "eero install",
    steps := [{ step_number := "1", action := "do", expected_result := "" }],
    is_generated := false }

/-- The Business Rule Table entry with the critical id 29, verbatim. -/
def comboCritical : Combo :=
  { id := 29, order_type := "cos", customer_status := "existing_hsd_eero_additional", segment := "business", truck_roll := "no", eero_type := "remove_device_not_gateway", description := "Change of Service Existing HSD customer with Eero and additional Eero Business No Truck roll Remove Eero device which is gateway No" }

/-- The Business Rule Table entry with the ordinary id 1, verbatim. -/
def comboBase : Combo :=
  { id := 1, order_type := "install", customer_status := "new", segment := "residential", truck_roll := "with", eero_type := "eero", description := "Install New Residential Truck roll Eero" }

/-- A detection for the critical CombinationRule id 29. -/
def dCritDetection : Detection :=
  { combination := comboCritical, match_score := 1,
    service_code := "REMOVE_DEVICE_NON_GATEWAY", rag_context := "" }

/-- A detection for the ordinary CombinationRule id 1. -/
def dBaseDetection : Detection :=
  { combination := comboBase, match_score := 1, service_code := "HE008", rag_context := "" }

/-- A detection list holding a critical and a non-critical detection. -/
def dsCritFixture : List Detection := [dCritDetection, dBaseDetection]

/-- A story analysis under which no Business Rule Table entry scores above the
threshold: the implied order types and segments are nonempty but match no
catalog entry, and no other scoring component fires. -/
def analysisNoMatch : StoryAnalysis :=
  { order_types := ["install"], customer_segments := ["martian"],
    truck_roll_preference := "neither", eero_types := [], specific_scenarios := [],
    device_lifecycle_required := false, association_process_detected := false }

/-! ## Helper lemmas -/

/-- The remainder returned by `collectBody` never exceeds its input. -/
theorem collectBody_rem_length (fuel : Nat) (ls : List String) :
    (collectBody fuel ls).2.length ≤ ls.length := by
  induction ls generalizing fuel with
  | nil => simp [collectBody]
  | cons l ls ih =>
    simp only [collectBody]
    split
    · simp
    · split
      · exact le_trans (ih fuel) (Nat.le_succ _)
      · split
        · simp
        · simpa using le_trans (ih (fuel - 1)) (Nat.le_succ _)

theorem mem_ensureGroup {groups : List ReqGroup} {c : Combo} {key : String} {g : ReqGroup}
    (h : g ∈ ensureGroup groups c key) : g ∈ groups ∨ g = emptyGroup c key := by
  unfold ensureGroup at h
  split at h
  · exact Or.inl h
  · rcases List.mem_append.1 h with h | h
    · exact Or.inl h
    · exact Or.inr (List.mem_singleton.1 h)

theorem ensureGroup_keysOk {groups : List ReqGroup} {c : Combo} {key : String}
    (h : KeysOk groups) : KeysOk (ensureGroup groups c key) := by
  intro g hg x hx
  rcases mem_ensureGroup hg with hg' | rfl
  · exact h g hg' x hx
  · simp [emptyGroup] at hx

theorem ensureGroup_countsOk {groups : List ReqGroup} {c : Combo} {key : String}
    (h : CountsOk groups) : CountsOk (ensureGroup groups c key) := by
  intro g hg
  rcases mem_ensureGroup hg with hg' | rfl
  · exact h g hg'
  · rfl

theorem ensureGroup_nodup {groups : List ReqGroup} {c : Combo} {key : String}
    (h : NodupKeys groups) : NodupKeys (ensureGroup groups c key) := by
  unfold ensureGroup
  split
  · exact h
  · rename_i hany
    have hnot : ∀ g ∈ groups, ¬ g.key = key := by
      intro g hg
      rw [Bool.not_eq_true, List.any_eq_false] at hany
      simpa using hany g hg
    unfold NodupKeys
    rw [List.map_append, List.nodup_append]
    refine ⟨h, by simp, ?_⟩
    intro k hk hk'
    simp only [List.map_cons, List.map_nil, List.mem_singleton] at hk'
    obtain ⟨g, hg, rfl⟩ := List.mem_map.1 hk
    exact hnot g hg (by simpa [emptyGroup] using hk')

theorem ensureGroup_sum (groups : List ReqGroup) (c : Combo) (key : String) :
    groupsSum (ensureGroup groups c key) = groupsSum groups := by
  unfold ensureGroup
  split
  · rfl
  · simp [groupsSum, emptyGroup]

theorem ensureGroup_hasKey (groups : List ReqGroup) (c : Combo) (key : String) :
    (ensureGroup groups c key).any (fun g => g.key = key) = true := by
  unfold ensureGroup
  split
  · assumption
  · simp [emptyGroup]

theorem map_bump_eq_self {key : String} {d : Detection} :
    ∀ {groups : List ReqGroup}, (∀ g ∈ groups, g.key ≠ key) →
      (groups.map fun g => if g.key = key then bumpGroup d g else g) = groups := by
  intro groups h
  induction groups with
  | nil => rfl
  | cons g gs ih =>
    rw [List.map_cons, if_neg (h g (List.mem_cons_self _ _)),
      ih fun g' hg' => h g' (List.mem_cons_of_mem _ hg')]

theorem sum_map_bump {key : String} (d : Detection) :
    ∀ (groups : List ReqGroup), NodupKeys groups →
      groups.any (fun g => g.key = key) = true →
      groupsSum (groups.map fun g => if g.key = key then bumpGroup d g else g)
        = groupsSum groups + 1 := by
  intro groups
  induction groups with
  | nil => intro _ h; simp at h
  | cons g gs ih =>
    intro hnd hany
    have hnd' : NodupKeys gs := by
      have := hnd
      unfold NodupKeys at this ⊢
      rw [List.map_cons, List.nodup_cons] at this
      exact this.2
    have hhead : g.key ∉ gs.map (fun g => g.key) := by
      have := hnd
      unfold NodupKeys at this
      rw [List.map_cons, List.nodup_cons] at this
      exact this.1
    by_cases hk : g.key = key
    · have htail : ∀ g' ∈ gs, g'.key ≠ key := by
        intro g' hg' he
        exact hhead (by rw [hk, ← he]; exact List.mem_map_of_mem _ hg')
      rw [List.map_cons, if_pos hk, map_bump_eq_self htail]
      simp [groupsSum, bumpGroup]
      omega
    · have hany' : gs.any (fun g => g.key = key) = true := by
        rcases (List.any_eq_true).1 hany with ⟨g', hg', he⟩
        rcases List.mem_cons.1 hg' with rfl | hg''
        · exact absurd (by simpa using he) hk
        · exact (List.any_eq_true).2 ⟨g', hg'', he⟩
      rw [List.map_cons, if_neg hk]
      simp only [groupsSum, List.map_cons, List.sum_cons]
      rw [show ((gs.map fun g => if g.key = key then bumpGroup d g else g).map
        (fun g => g.combinations.length)).sum = groupsSum (gs.map fun g =>
          if g.key = key then bumpGroup d g else g) from rfl]
      rw [ih hnd' hany']
      simp [groupsSum]
      omega

theorem keys_map_bump (groups : List ReqGroup) (d : Detection) (key : String) :
    ((groups.map fun g => if g.key = key then bumpGroup d g else g).map (fun g => g.key))
      = groups.map (fun g => g.key) := by
  rw [List.map_map]
  refine List.map_congr_left fun g _ => ?_
  by_cases hk : g.key = key
  · simp [hk, bumpGroup]
  · simp [hk]

theorem addDetection_keysOk {groups : List ReqGroup} (d : Detection)
    (h : KeysOk groups) : KeysOk (addDetection groups d) := by
  intro g hg x hx
  unfold addDetection at hg
  obtain ⟨g0, hg0, hfg⟩ := List.mem_map.1 hg
  subst hfg
  by_cases hk : g0.key = groupKey d.combination
  · rw [if_pos hk] at hx ⊢
    rcases List.mem_append.1 hx with hx' | hx'
    · exact ensureGroup_keysOk h g0 hg0 x hx'
    · rw [List.mem_singleton.1 hx']
      exact hk.symm
  · rw [if_neg hk] at hx ⊢
    exact ensureGroup_keysOk h g0 hg0 x hx

theorem addDetection_countsOk {groups : List ReqGroup} (d : Detection)
    (h : CountsOk groups) : CountsOk (addDetection groups d) := by
  intro g hg
  unfold addDetection at hg
  obtain ⟨g0, hg0, hfg⟩ := List.mem_map.1 hg
  subst hfg
  by_cases hk : g0.key = groupKey d.combination
  · rw [if_pos hk]
    simp [bumpGroup, ensureGroup_countsOk h g0 hg0]
  · rw [if_neg hk]
    exact ensureGroup_countsOk h g0 hg0

theorem addDetection_nonemptyOk {groups : List ReqGroup} (d : Detection)
    (h : NonemptyOk groups) : NonemptyOk (addDetection groups d) := by
  intro g hg
  unfold addDetection at hg
  obtain ⟨g0, hg0, hfg⟩ := List.mem_map.1 hg
  subst hfg
  by_cases hk : g0.key = groupKey d.combination
  · rw [if_pos hk]
    simp [bumpGroup]
  · rw [if_neg hk]
    rcases mem_ensureGroup hg0 with hg' | rfl
    · exact h g0 hg'
    · exact absurd rfl hk

theorem addDetection_nodup {groups : List ReqGroup} (d : Detection)
    (h : NodupKeys groups) : NodupKeys (addDetection groups d) := by
  unfold addDetection NodupKeys
  rw [keys_map_bump]
  exact ensureGroup_nodup h

theorem addDetection_sum {groups : List ReqGroup} (d : Detection)
    (h : NodupKeys groups) : groupsSum (addDetection groups d) = groupsSum groups + 1 := by
  unfold addDetection
  rw [sum_map_bump d _ (ensureGroup_nodup h) (ensureGroup_hasKey groups d.combination _),
    ensureGroup_sum]

theorem addDetection_combos_source {groups : List ReqGroup} {d : Detection} {g : ReqGroup}
    {x : Detection} (hg : g ∈ addDetection groups d) (hx : x ∈ g.combinations) :
    (∃ g0 ∈ groups, x ∈ g0.combinations) ∨ x = d := by
  unfold addDetection at hg
  obtain ⟨g0, hg0, hfg⟩ := List.mem_map.1 hg
  subst hfg
  by_cases hk : g0.key = groupKey d.combination
  · rw [if_pos hk] at hx
    rcases List.mem_append.1 hx with hx' | hx'
    · rcases mem_ensureGroup hg0 with hg' | rfl
      · exact Or.inl ⟨g0, hg', hx'⟩
      · simp [emptyGroup] at hx'
    · exact Or.inr (List.mem_singleton.1 hx')
  · rw [if_neg hk] at hx
    rcases mem_ensureGroup hg0 with hg' | rfl
    · exact Or.inl ⟨g0, hg', hx⟩
    · simp [emptyGroup] at hx

theorem requirementGroups_keysOk (ds : List Detection) : KeysOk (requirementGroups ds) := by
  unfold requirementGroups
  suffices h : ∀ groups : List ReqGroup, KeysOk groups → KeysOk (ds.foldl addDetection groups) by
    exact h [] (by intro g hg; simp at hg)
  induction ds with
  | nil => intro groups h; exact h
  | cons d ds ih => intro groups h; exact ih _ (addDetection_keysOk d h)

theorem requirementGroups_countsOk (ds : List Detection) : CountsOk (requirementGroups ds) := by
  unfold requirementGroups
  suffices h : ∀ groups : List ReqGroup, CountsOk groups → CountsOk (ds.foldl addDetection groups) by
    exact h [] (by intro g hg; simp at hg)
  induction ds with
  | nil => intro groups h; exact h
  | cons d ds ih => intro groups h; exact ih _ (addDetection_countsOk d h)

theorem requirementGroups_nonemptyOk (ds : List Detection) : NonemptyOk (requirementGroups ds) := by
  unfold requirementGroups
  suffices h : ∀ groups : List ReqGroup, NonemptyOk groups →
      NonemptyOk (ds.foldl addDetection groups) by
    exact h [] (by intro g hg; simp at hg)
  induction ds with
  | nil => intro groups h; exact h
  | cons d ds ih => intro groups h; exact ih _ (addDetection_nonemptyOk d h)

theorem requirementGroups_sum (ds : List Detection) :
    groupsSum (requirementGroups ds) = ds.length := by
  unfold requirementGroups
  suffices h : ∀ groups : List ReqGroup, NodupKeys groups →
      groupsSum (ds.foldl addDetection groups) = groupsSum groups + ds.length ∧
        NodupKeys (ds.foldl addDetection groups) by
    simpa [groupsSum] using (h [] (by simp [NodupKeys])).1
  induction ds with
  | nil =>
    intro groups h
    exact ⟨by simp, by simpa using h⟩
  | cons d ds ih =>
    intro groups h
    have := ih (addDetection groups d) (addDetection_nodup d h)
    refine ⟨?_, this.2⟩
    rw [List.foldl_cons, this.1, addDetection_sum d h, List.length_cons]
    omega

theorem requirementGroups_combos_source {ds : List Detection} {g : ReqGroup} {x : Detection}
    (hg : g ∈ requirementGroups ds) (hx : x ∈ g.combinations) : x ∈ ds := by
  unfold requirementGroups at hg
  suffices h : ∀ groups : List ReqGroup, g ∈ ds.foldl addDetection groups →
      (∃ g0 ∈ groups, x ∈ g0.combinations) ∨ x ∈ ds by
    rcases h [] hg with ⟨g0, hg0, _⟩ | hx'
    · simp at hg0
    · exact hx'
  clear hg
  induction ds with
  | nil =>
    intro groups hg
    exact Or.inl ⟨g, hg, hx⟩
  | cons d ds ih =>
    intro groups hg
    rw [List.foldl_cons] at hg
    rcases ih (addDetection groups d) hg with ⟨g0, hg0, hx0⟩ | hx'
    · rcases addDetection_combos_source hg0 hx0 with ⟨g1, hg1, hx1⟩ | rfl
      · exact Or.inl ⟨g1, hg1, hx1⟩
      · exact Or.inr (List.mem_cons_self _ _)
    · exact Or.inr (List.mem_cons_of_mem _ hx')

theorem analyzeUserStory_wf (story : String) : AnalysisWF (analyzeUserStory story) := by
  unfold AnalysisWF analyzeUserStory
  refine ⟨?_, ?_, ?_, ?_⟩ <;>
    · simp only []
      split_ifs <;> simp_all [List.subset_def]

theorem mem_getDefaultCombinations {a : StoryAnalysis} {n : Nat} {d : Detection}
    (hwf : AnalysisWF a) (hd : d ∈ getDefaultCombinations a n) :
    d.combination ∈ possibleDefaultCombos := by
  unfold getDefaultCombinations at hd
  have hd' := List.take_subset _ _ hd
  obtain ⟨ot, hot, rest⟩ := List.mem_flatMap.1 hd'
  obtain ⟨seg, hseg, rest2⟩ := List.mem_flatMap.1 rest
  obtain ⟨et, het, rfl⟩ := List.mem_map.1 rest2
  unfold possibleDefaultCombos
  exact List.mem_flatMap.2 ⟨ot, hwf.1 hot, List.mem_flatMap.2 ⟨seg, hwf.2.1 hseg,
    List.mem_map.2 ⟨et, List.take_subset _ _ het, rfl⟩⟩⟩

theorem default_score {a : StoryAnalysis} {n : Nat} {d : Detection}
    (hd : d ∈ getDefaultCombinations a n) : d.match_score = mkRat 1 2 := by
  unfold getDefaultCombinations at hd
  have hd' := List.take_subset _ _ hd
  obtain ⟨ot, _, rest⟩ := List.mem_flatMap.1 hd'
  obtain ⟨seg, _, rest2⟩ := List.mem_flatMap.1 rest
  obtain ⟨et, _, rfl⟩ := List.mem_map.1 rest2
  rfl

theorem mem_thresholded {a : StoryAnalysis} {rag : String} {d : Detection}
    (hd : d ∈ thresholdedDetections a rag) :
    d.combination ∈ validCombinations ∧ mkRat 2 5 < d.match_score := by
  unfold thresholdedDetections at hd
  obtain ⟨combo, hc, he⟩ := List.mem_filterMap.1 hd
  dsimp only at he
  split at he
  · rename_i hcond
    cases he
    exact ⟨hc, hcond⟩
  · cases he

theorem take_ne_nil {α : Type} {l : List α} {n : Nat} (hl : l ≠ []) (hn : n ≠ 0) :
    l.take n ≠ [] := by
  cases l with
  | nil => exact absurd rfl hl
  | cons x xs =>
    cases n with
    | zero => exact absurd rfl hn
    | succ m => simp

theorem detect_sourced (userStory : String) (rc : Option Nat) (rag : String) :
    ∀ d ∈ detectCombinationsFromStory userStory rc rag, d.combination ∈ sourcedCombos := by
  intro d hd
  unfold detectCombinationsFromStory detectFromAnalysis at hd
  simp only [] at hd
  have hd' := List.take_subset _ _ hd
  unfold sourcedCombos
  split at hd'
  · exact List.mem_append_right _
      (mem_getDefaultCombinations (analyzeUserStory_wf _) hd')
  · exact List.mem_append_left _
      (mem_thresholded ((List.mem_insertionSort detGE).1 hd')).1

theorem groupKey_critical_separates :
    ∀ c1 ∈ sourcedCombos, c1.id ∈ criticalIds →
      ∀ c2 ∈ sourcedCombos, c1.id ≠ c2.id → ¬ (groupKey c1 = groupKey c2) := by decide

/-! ## Claim C1: consolidation never merges critical ids 29-31 with other rules -/

/-- C1.  For every detection list whose combinations come from the Business
Rule Table or the synthesized defaults (which is the case for every list the
detector passes to consolidation, by `detect_sourced`), a detection for a
critical CombinationRule id (29, 30 or 31) is never grouped into the same
Requirement as a detection with any other rule id. -/
theorem consolidation_isolates_critical (ds : List Detection)
    (hsrc : ∀ d ∈ ds, d.combination ∈ sourcedCombos) :
    ∀ req ∈ getCombinationRequirements ds, ∀ d1 ∈ req.all_combinations,
      ∀ d2 ∈ req.all_combinations, d1.combination.id ∈ criticalIds →
        d2.combination.id = d1.combination.id := by
  intro req hreq d1 h1 d2 h2 hcrit
  obtain ⟨g, hg, hfg⟩ := List.mem_map.1 hreq
  have hac : req.all_combinations = g.combinations := by rw [← hfg]; rfl
  rw [hac] at h1 h2
  have hKeys := requirementGroups_keysOk ds
  have hk1 := hKeys g hg d1 h1
  have hk2 := hKeys g hg d2 h2
  have hd1 : d1 ∈ ds := requirementGroups_combos_source hg h1
  have hd2 : d2 ∈ ds := requirementGroups_combos_source hg h2
  by_contra hne
  exact groupKey_critical_separates d1.combination (hsrc d1 hd1) hcrit d2.combination
    (hsrc d2 hd2) (fun he => hne he.symm) (hk1.trans hk2.symm)

/-- Witness for C1 at a concrete list holding a critical (id 29) and an
ordinary (id 1) detection, instantiated at the critical detection's group. -/
theorem consolidation_isolates_critical_witness :
    dCritDetection.combination.id = dCritDetection.combination.id :=
  consolidation_isolates_critical dsCritFixture (by decide)
    ((getCombinationRequirements dsCritFixture).headI) (by decide)
    dCritDetection (by decide) dCritDetection (by decide) (by decide)

/-! ## Claim C10: consolidation preserves and counts every detection -/

/-- C10.  For every nonempty detection list, every produced Requirement has
`count_needed > 0` (equal to the size of its group), and the counts over all
Requirements sum to the number of input detections. -/
theorem consolidation_counts (ds : List Detection) (hne : ds ≠ []) :
    (∀ req ∈ getCombinationRequirements ds,
        0 < req.count_needed ∧ req.count_needed = req.all_combinations.length) ∧
      ((getCombinationRequirements ds).map (fun req => req.count_needed)).sum = ds.length := by
  constructor
  · intro req hreq
    obtain ⟨g, hg, hfg⟩ := List.mem_map.1 hreq
    have hcount : req.count_needed = g.count_needed := by rw [← hfg]; rfl
    have hac : req.all_combinations = g.combinations := by rw [← hfg]; rfl
    have h1 := requirementGroups_countsOk ds g hg
    have h2 := requirementGroups_nonemptyOk ds g hg
    rw [hcount, hac, h1]
    exact ⟨List.length_pos.2 h2, rfl⟩
  · calc ((getCombinationRequirements ds).map (fun req => req.count_needed)).sum
        = ((requirementGroups ds).map (fun g => g.combinations.length)).sum := by
          unfold getCombinationRequirements
          rw [List.map_map]
          congr 1
          refine List.map_congr_left fun g hg => ?_
          simp only [Function.comp]
          exact requirementGroups_countsOk ds g hg
      _ = ds.length := requirementGroups_sum ds

/-- Witness for C10 on a concrete detector output. -/
theorem consolidation_counts_witness :
    (∀ req ∈ getCombinationRequirements (detectCombinationsFromStory "add eero" (some 1) ""),
        0 < req.count_needed ∧ req.count_needed = req.all_combinations.length) ∧
      ((getCombinationRequirements (detectCombinationsFromStory "add eero" (some 1) "")).map
          (fun req => req.count_needed)).sum
        = (detectCombinationsFromStory "add eero" (some 1) "").length :=
  consolidation_counts _ (by decide)

/-! ## Claim C3: kept detections score above 0.4 and are sorted descending -/

/-- C3.  Every detection returned by `detect_combinations_from_story` has a
match score strictly greater than 0.4, and the returned list is ordered by
non-increasing match score. -/
theorem detections_above_threshold_sorted (userStory : String) (rc : Option Nat) (rag : String) :
    (∀ d ∈ detectCombinationsFromStory userStory rc rag, mkRat 2 5 < d.match_score) ∧
      (detectCombinationsFromStory userStory rc rag).Sorted detGE := by
  unfold detectCombinationsFromStory detectFromAnalysis
  simp only []
  by_cases hc :
      (thresholdedDetections (analyzeUserStory (pyLower userStory)) rag).insertionSort detGE = []
  · rw [hc, if_pos rfl]
    constructor
    · intro d hd
      rw [default_score (List.take_subset _ _ hd)]
      decide
    · refine List.Pairwise.sublist (List.take_sublist _ _) ?_
      exact List.pairwise_of_forall_mem_list fun x hx y hy => by
        unfold detGE
        rw [default_score hx, default_score hy]
  · rw [if_neg hc]
    constructor
    · intro d hd
      exact (mem_thresholded ((List.mem_insertionSort detGE).1 (List.take_subset _ _ hd))).2
    · exact List.Pairwise.sublist (List.take_sublist _ _) (List.sorted_insertionSort detGE _)

/-- Witness for C3 at a concrete story. -/
theorem detections_above_threshold_sorted_witness :
    (∀ d ∈ detectCombinationsFromStory "add eero" (some 1) "", mkRat 2 5 < d.match_score) ∧
      (detectCombinationsFromStory "add eero" (some 1) "").Sorted detGE :=
  detections_above_threshold_sorted "add eero" (some 1) ""

/-! ## Claim C8: synthesized defaults when nothing clears the threshold -/

/-- C8.  Whenever no CombinationRule clears the 0.4 threshold (no request text
can actually produce such an analysis, since some rule always scores at least
0.5; the property is therefore stated over the analysis, where the no-match
condition is satisfiable), the detector does not fail or return an empty list:
it returns the synthesized defaults, the cross product of the implied order
types × implied customer segments × the two default product variants, truncated
to the requested count. -/
theorem defaults_on_no_match (a : StoryAnalysis) (rc : Nat) (rag : String)
    (hrc : 1 ≤ rc) (ho : a.order_types ≠ []) (hs : a.customer_segments ≠ [])
    (hthresh : thresholdedDetections a rag = []) :
    detectFromAnalysis a rc rag = (getDefaultCombinations a rc).take (rc * 2) ∧
      detectFromAnalysis a rc rag ≠ [] := by
  have hmain : detectFromAnalysis a rc rag = (getDefaultCombinations a rc).take (rc * 2) := by
    unfold detectFromAnalysis
    rw [hthresh]
    rfl
  refine ⟨hmain, ?_⟩
  rw [hmain]
  obtain ⟨ot, hot⟩ := List.exists_mem_of_ne_nil _ ho
  obtain ⟨seg, hseg⟩ := List.exists_mem_of_ne_nil _ hs
  have hbig : (a.order_types.flatMap fun ot => a.customer_segments.flatMap fun seg =>
      (["eero", "eero_plus"].take 2).map fun et => defaultDetection ot seg et) ≠ [] := by
    refine List.ne_nil_of_mem (a := defaultDetection ot seg "eero") ?_
    exact List.mem_flatMap.2 ⟨ot, hot, List.mem_flatMap.2 ⟨seg, hseg,
      List.mem_map.2 ⟨"eero", by decide, rfl⟩⟩⟩
  have hdef : getDefaultCombinations a rc ≠ [] := by
    unfold getDefaultCombinations
    exact take_ne_nil hbig (by omega)
  exact take_ne_nil hdef (by omega)

/-- Witness for C8 at a concrete no-match analysis. -/
theorem defaults_on_no_match_witness :
    detectFromAnalysis analysisNoMatch 1 "" = (getDefaultCombinations analysisNoMatch 1).take 2 ∧
      detectFromAnalysis analysisNoMatch 1 "" ≠ [] :=
  defaults_on_no_match analysisNoMatch 1 "" (by decide) (by decide) (by decide) (by decide)

theorem mem_scoreTemplates {tcs : List TestCase} {p : ℤ × TestCase}
    (hp : p ∈ scoreTemplates tcs) : p.2 ∈ tcs := by
  unfold scoreTemplates at hp
  have hp' := (List.mem_insertionSort pairScoreGE).1 hp
  obtain ⟨tc, htc, he⟩ := List.mem_map.1 hp'
  subst he
  exact htc

theorem mem_selectById {scored : List (ℤ × TestCase)} {ids : List String} {tc : TestCase}
    (h : tc ∈ selectById scored ids) : ∃ p ∈ scored, p.2 = tc := by
  unfold selectById at h
  suffices hgen : ∀ sel : List TestCase,
      tc ∈ ids.foldl (fun sel tcId =>
        match scored.find? (fun p => p.2.id = tcId ∧ p.2 ∉ sel) with
        | some p => sel ++ [p.2]
        | none => sel) sel →
      tc ∈ sel ∨ ∃ p ∈ scored, p.2 = tc by
    rcases hgen [] h with h' | h'
    · simp at h'
    · exact h'
  clear h
  induction ids with
  | nil => intro sel h; exact Or.inl h
  | cons i is ih =>
    intro sel h
    rw [List.foldl_cons] at h
    rcases ih _ h with h' | h'
    · rcases hfind : scored.find? (fun p => p.2.id = i ∧ p.2 ∉ sel) with _ | p
      · rw [hfind] at h'
        exact Or.inl h'
      · rw [hfind] at h'
        rcases List.mem_append.1 h' with h2 | h2
        · exact Or.inl h2
        · exact Or.inr ⟨p, List.mem_of_find?_eq_some hfind, (List.mem_singleton.1 h2).symm⟩
    · exact Or.inr h'

theorem completeTemplates_subset (tcs : List TestCase) (req : Requirement) :
    completeTemplates tcs req ⊆ matchingTemplates tcs req := by
  intro tc htc
  unfold completeTemplates at htc
  simp only [] at htc
  split at htc
  · exact (List.mem_insertionSort stepCountGE).1 htc
  · exact List.mem_of_mem_filter htc

theorem mem_findTestCases {tcs : List TestCase} {req : Requirement} {resp : Option String}
    {tc : TestCase} (h : tc ∈ findTestCases tcs req resp) :
    tc ∈ completeTemplates tcs req := by
  unfold findTestCases at h
  simp only [] at h
  split at h
  · simp at h
  · split at h
    · obtain ⟨p, hp, he⟩ := List.mem_map.1 h
      subst he
      exact mem_scoreTemplates hp
    · cases resp with
      | none =>
        obtain ⟨p, hp, he⟩ := List.mem_map.1 h
        subst he
        exact mem_scoreTemplates (List.take_subset _ _ hp)
      | some r =>
        simp only [] at h
        split at h
        · obtain ⟨p, hp, he⟩ := mem_selectById (List.take_subset _ _ h)
          subst he
          exact mem_scoreTemplates hp
        · obtain ⟨p, hp, he⟩ := List.mem_map.1 h
          subst he
          exact mem_scoreTemplates (List.take_subset _ _ hp)

/-! ## Claim C4: template selection and exact field matches -/

/-- Counterexample to C4.  In the generation-time selection path
(`_find_best_template_with_rag`), content-vocabulary bonuses can outweigh the
exact-field-match points: with an exact match (`tcExactMatch`) present in the
store, the path still returns `tcContentHeavy`, which differs from the
requirement in both customer type and scenario type. -/
theorem generation_selects_mismatch_counterexample :
    (findBestTemplateWithRag [tcExactMatch, tcContentHeavy] "eero_plus" reqResiInstall []).1
        = some tcContentHeavy ∧
      tcContentHeavy.customer_type ≠ reqResiInstall.customer_type ∧
      tcContentHeavy.scenario_type ≠ reqResiInstall.scenario_type ∧
      tcExactMatch ∈ [tcExactMatch, tcContentHeavy] ∧
      tcExactMatch.customer_type = reqResiInstall.customer_type ∧
      tcExactMatch.scenario_type = reqResiInstall.scenario_type ∧
      tcExactMatch.truck_roll_type = reqResiInstall.truck_roll_type := by decide

/-- C4 as amended.  The retrieval path (`find_test_cases`) never returns a
template whose customer type, scenario type or truck-roll flag differs from
the requirement's — when no exact match exists it returns the empty list
instead; the generation-time path carries no such guarantee (see the
counterexample). -/
theorem retrieval_returns_exact_matches (tcs : List TestCase) (req : Requirement)
    (resp : Option String) :
    ∀ tc ∈ findTestCases tcs req resp,
      tc.customer_type = req.customer_type ∧ tc.scenario_type = req.scenario_type ∧
        tc.truck_roll_type = req.truck_roll_type := by
  intro tc htc
  have h1 := completeTemplates_subset tcs req (mem_findTestCases htc)
  have hp := (List.mem_filter.1 h1).2
  rw [decide_eq_true_eq] at hp
  exact ⟨hp.1, hp.2.1, hp.2.2.1⟩

/-- Witness for the amended C4 on a store holding one exact match. -/
theorem retrieval_returns_exact_matches_witness :
    tcExactMatch.customer_type = reqResiInstall.customer_type ∧
      tcExactMatch.scenario_type = reqResiInstall.scenario_type ∧
        tcExactMatch.truck_roll_type = reqResiInstall.truck_roll_type :=
  retrieval_returns_exact_matches [tcExactMatch] reqResiInstall none tcExactMatch (by decide)

/-! ## Claim C7: zero-step templates and template matching -/

/-- Counterexample to C7.  A template with zero steps is not excluded from
matching: when it is the only exact match, `find_test_cases` returns it. -/
theorem zero_step_template_returned_counterexample :
    findTestCases [tcZeroSteps] reqResiInstall none = [tcZeroSteps] ∧
      tcZeroSteps.steps.length = 0 := by decide

/-- C7 as amended.  The retrieval path does not exclude zero-step templates in
general; the guarantee that holds is conditional: whenever some exact-matching
template has at least 8 steps, every template returned by `find_test_cases`
has at least 8 steps (in particular at least one). -/
theorem retrieval_complete_when_available (tcs : List TestCase) (req : Requirement)
    (resp : Option String)
    (hex : ∃ tc ∈ matchingTemplates tcs req, 8 ≤ tc.steps.length) :
    ∀ tc ∈ findTestCases tcs req resp, 8 ≤ tc.steps.length := by
  intro tc htc
  have hc := mem_findTestCases htc
  unfold completeTemplates at hc
  simp only [] at hc
  have hne : (matchingTemplates tcs req).filter (fun tc => 8 ≤ tc.steps.length) ≠ [] := by
    obtain ⟨t, ht, h8⟩ := hex
    exact List.ne_nil_of_mem (List.mem_filter.2 ⟨ht, by simpa using h8⟩)
  rw [if_neg hne] at hc
  simpa using (List.mem_filter.1 hc).2

/-- Witness for the amended C7 on a store holding one complete template. -/
theorem retrieval_complete_when_available_witness :
    8 ≤ tcContentHeavy.steps.length :=
  retrieval_complete_when_available [tcContentHeavy] reqBusiCos none
    ⟨tcContentHeavy, by decide, by decide⟩ tcContentHeavy (by decide)

/-! ## Claim C9: diversity penalty and reset of the used-template set -/

/-- C9.  Within one run (where the used-template set never exceeds the
five-element trim), a template already chosen earlier has its score reduced by
exactly `5 * |used|`, a penalty proportional to the number of templates used so
far; and once every available template has been used, the set is cleared: the
call returns with the used set reset to just the newly chosen template. -/
theorem template_diversity_penalty_and_reset (tcs : List TestCase)
    (combinationType : String) (req : Requirement) (used : List String) (tc : TestCase)
    (hlen : used.length ≤ 6) :
    (tc.id ∈ used →
      ragTemplateScore combinationType req used tc
        = ragTemplateScore combinationType req [] tc - 5 * used.length) ∧
    ((∀ t ∈ tcs.filter (fun t => t.is_generated = false), t.id ∈ used) →
      (tcs.filter (fun t => t.is_generated = false)).length ≤ used.length →
      tcs.filter (fun t => t.is_generated = false) ≠ [] →
      ∃ chosen, findBestTemplateWithRag tcs combinationType req used
        = (some chosen, [chosen.id])) := by
  constructor
  · intro hmem
    unfold ragTemplateScore
    simp only []
    rw [if_pos hmem, if_neg (List.not_mem_nil tc.id)]
    have hpen : diversityPenalty used = 5 * (used.length : ℤ) := by
      unfold diversityPenalty
      have : (used.length : ℤ) ≤ 6 := by exact_mod_cast hlen
      omega
    rw [hpen]
    ring
  · intro hall hcnt hne
    unfold findBestTemplateWithRag
    simp only []
    have hsne : ((tcs.filter fun t => t.is_generated = false).map fun t =>
        (ragTemplateScore combinationType req used t, t)).insertionSort pairScoreGE ≠ [] := by
      intro h0
      have hlen0 := (List.perm_insertionSort pairScoreGE
        ((tcs.filter fun t => t.is_generated = false).map fun t =>
          (ragTemplateScore combinationType req used t, t))).length_eq
      rw [h0] at hlen0
      simp only [List.length_nil, List.length_map] at hlen0
      exact hne (List.length_eq_zero.1 hlen0.symm)
    rw [if_neg hsne]
    have hfind : (((tcs.filter fun t => t.is_generated = false).map fun t =>
        (ragTemplateScore combinationType req used t, t)).insertionSort pairScoreGE).find?
          (fun p => p.2.id ∉ used) = none := by
      rw [List.find?_eq_none]
      intro p hp
      have hpav : p.2 ∈ tcs.filter fun t => t.is_generated = false := by
        have hp' := (List.mem_insertionSort pairScoreGE).1 hp
        obtain ⟨t, ht, he⟩ := List.mem_map.1 hp'
        subst he
        exact ht
      simp [hall p.2 hpav]
    rw [hfind]
    rw [if_pos hcnt]
    refine ⟨(((tcs.filter fun t => t.is_generated = false).map fun t =>
      (ragTemplateScore combinationType req used t, t)).insertionSort pairScoreGE).headI.2, ?_⟩
    simp [addUsed, trimUsed]

/-- Witness for C9 at a one-template store whose template was already used. -/
theorem template_diversity_penalty_and_reset_witness :
    (tcUsedFixture.id ∈ ["TC_used"] →
      ragTemplateScore "base_eero" reqResiInstall ["TC_used"] tcUsedFixture
        = ragTemplateScore "base_eero" reqResiInstall [] tcUsedFixture
          - 5 * (["TC_used"] : List String).length) ∧
    ((∀ t ∈ [tcUsedFixture].filter (fun t => t.is_generated = false), t.id ∈ ["TC_used"]) →
      ([tcUsedFixture].filter (fun t => t.is_generated = false)).length
          ≤ (["TC_used"] : List String).length →
      [tcUsedFixture].filter (fun t => t.is_generated = false) ≠ [] →
      ∃ chosen, findBestTemplateWithRag [tcUsedFixture] "base_eero" reqResiInstall ["TC_used"]
        = (some chosen, [chosen.id])) :=
  template_diversity_penalty_and_reset [tcUsedFixture] "base_eero" reqResiInstall
    ["TC_used"] tcUsedFixture (by decide)

theorem matchStep_empty : matchStep "" = none := by decide

theorem parseLoop_step_marker {fuel : Nat} {l : String} {ls : List String}
    {cur : Option StepRec} {acc : List StepRec} {num content : String}
    (hstrip : pyStrip l = l) (hmarker : containsSub l "Test_steps:" = false)
    (hmatch : matchStep l = some (num, content)) (hcne : content ≠ "") :
    parseLoop (fuel + 1) (l :: ls) true cur acc =
      parseLoop fuel (collectBody 50 ls).2 true
        (some ⟨num, pyStrip (String.intercalate " " (content :: (collectBody 50 ls).1)),
          extractExpected (pyStrip (String.intercalate " " (content :: (collectBody 50 ls).1)))⟩)
        (acc ++ flushStep cur) := by
  have hlne : ¬ (l = "") := by
    intro he
    rw [he, matchStep_empty] at hmatch
    cases hmatch
  simp only [parseLoop, hstrip, hmarker, Bool.false_eq_true, if_false, hmatch]
  rw [if_neg fun h => h.elim (fun h' => by cases h') hlne, if_neg hcne]
  rfl

theorem collectBody_stops_at_marker {rest : List (String × String)} :
    (∀ p ∈ rest, lineOk p) → collectBody 50 (mkStepLines rest) = ([], mkStepLines rest) := by
  intro hok
  cases rest with
  | nil => simp [mkStepLines, collectBody]
  | cons q qs =>
    obtain ⟨hqstrip, hqmatch, _, _, _⟩ := hok q (List.mem_cons_self _ _)
    simp only [mkStepLines, List.map_cons, collectBody, hqstrip]
    rw [if_neg (by omega : ¬ (50 = 0)), if_neg ?hne, if_pos (by rw [hqmatch]; rfl)]
    case hne =>
      intro he
      rw [he, matchStep_empty] at hqmatch
      cases hqmatch

theorem parseLoop_mkStepLines (items : List (String × String)) :
    ∀ (fuel : Nat), (∀ p ∈ items, lineOk p) → items.length ≤ fuel →
      ∀ (cur : Option StepRec) (acc : List StepRec),
        parseLoop fuel (mkStepLines items) true cur acc
          = (acc ++ flushStep cur) ++ items.map stepOfItem := by
  induction items with
  | nil =>
    intro fuel _ _ cur acc
    cases fuel <;> simp [mkStepLines, parseLoop]
  | cons p rest ih =>
    intro fuel hok hfuel cur acc
    cases fuel with
    | zero => simp at hfuel
    | succ f =>
      obtain ⟨hstrip, hmatch, hmarker, hbstrip, hbne⟩ := hok p (List.mem_cons_self _ _)
      have hrest : ∀ q ∈ rest, lineOk q := fun q hq => hok q (List.mem_cons_of_mem _ hq)
      have hcb := collectBody_stops_at_marker hrest
      rw [show mkStepLines (p :: rest) = (p.1 ++ ". " ++ p.2) :: mkStepLines rest from rfl]
      rw [parseLoop_step_marker hstrip hmarker hmatch hbne, hcb]
      have hfull : pyStrip (String.intercalate " " (p.2 :: ([] : List String))) = p.2 := hbstrip
      rw [hfull]
      rw [ih f hrest (by simpa using hfuel) _ _]
      have hflush : flushStep (some ⟨p.1, p.2, extractExpected p.2⟩) = [stepOfItem p] := by
        simp [flushStep, stepOfItem, hbne]
      rw [hflush]
      simp [stepOfItem]

theorem parseStepsLines_mkTestStepsLines (items : List (String × String))
    (hok : ∀ p ∈ items, lineOk p) :
    parseStepsLines (mkTestStepsLines items) = items.map stepOfItem := by
  unfold parseStepsLines mkTestStepsLines
  simp only [List.length_cons, parseLoop]
  rw [if_pos (by decide : containsSub (pyStrip "Test_steps:") "Test_steps:" = true)]
  have hlen : (mkStepLines items).length = items.length := by simp [mkStepLines]
  rw [parseLoop_mkStepLines items (mkStepLines items).length hok (le_of_eq hlen.symm) none []]
  simp [flushStep]

/-! ## Claim C6: sequence numbers of parsed steps -/

/-- Counterexample to C6.  The parser takes sequence numbers verbatim from the
file in document order and does not enforce that they increase from 1: a file
listing step 2 before step 1 parses to numbers [2, 1]. -/
theorem stepNumbering_counterexample :
    (parseSteps "Test_steps:\n2. Do A\n1. Do B").map (fun st => st.step_number) = ["2", "1"] ∧
      ¬ claimStepNumbering (parseSteps "Test_steps:\n2. Do A\n1. Do B") := by
  refine ⟨by decide, fun h => ?_⟩
  have h2 := h.2
  rw [show stepNumbers (parseSteps "Test_steps:\n2. Do A\n1. Do B") = [2, 1] by decide] at h2
  exact absurd h2 (by decide)

/-- C6 as amended.  Sequence numbers are extracted verbatim in document order;
for every file whose `Test_steps:` section consists of step lines whose
numbers, read as integers, are exactly 1..n in order, each carrying nonempty
inline content (`lineOk`), the parsed Template's sequence numbers are exactly
1..n — monotonically increasing starting at 1. -/
theorem parsed_step_numbers_sequential (items : List (String × String))
    (hok : ∀ p ∈ items, lineOk p)
    (hnums : items.map (fun p => stepNat p.1) = List.range' 1 items.length) :
    stepNumbers (parseStepsLines (mkTestStepsLines items)) = List.range' 1 items.length ∧
      claimStepNumbering (parseStepsLines (mkTestStepsLines items)) := by
  have hsn : stepNumbers (parseStepsLines (mkTestStepsLines items))
      = List.range' 1 items.length := by
    rw [parseStepsLines_mkTestStepsLines items hok]
    unfold stepNumbers
    rw [List.map_map]
    exact hnums
  refine ⟨hsn, ?_, ?_⟩
  · rw [hsn]
    exact (List.pairwise_lt_range' 1 items.length).chain'
  · rw [hsn]
    cases items.length with
    | zero => rfl
    | succ n => rfl

/-- Witness for the amended C6 at a two-step file. -/
theorem parsed_step_numbers_sequential_witness :
    stepNumbers (parseStepsLines (mkTestStepsLines [("1", "Do X"), ("2", "Verify Y")]))
        = List.range' 1 2 ∧
      claimStepNumbering (parseStepsLines (mkTestStepsLines [("1", "Do X"), ("2", "Verify Y")])) :=
  parsed_step_numbers_sequential [("1", "Do X"), ("2", "Verify Y")] (by decide) (by decide)

/-! ## Claim C5: truck-roll default by scenario type -/

/-- C5.  For every template filename containing none of the explicit
truck-roll marker substrings, the derived truck-roll flag defaults by scenario
type: "No" when the filename indicates a change-of-service ("cos") scenario
and "With" when it indicates a new-install scenario. -/
theorem truckRollDefault_by_scenario (filename : String)
    (h : ∀ m ∈ noTruckMarkers ++ withTruckMarkers, containsSub (pyLower filename) m = false) :
    extractTruckRollType filename =
      (if extractScenarioType filename = "cos" then "No" else "With") := by
  have hn : noTruckMarkers.any (containsSub (pyLower filename)) = false := by
    simp only [List.any_eq_false]
    intro m hm
    simp [h m (List.mem_append_left _ hm)]
  have hw : withTruckMarkers.any (containsSub (pyLower filename)) = false := by
    simp only [List.any_eq_false]
    intro m hm
    simp [h m (List.mem_append_right _ hm)]
  unfold extractTruckRollType extractScenarioType
  simp only []
  rw [hn, hw]
  by_cases hc : containsSub (pyLower filename) "cos" = true <;> simp [hc]

/-- Witness for C5 at the concrete filename "RESI cos basic eero". -/
theorem truckRollDefault_by_scenario_witness :
    extractTruckRollType "RESI cos basic eero" =
      (if extractScenarioType "RESI cos basic eero" = "cos" then "No" else "With") :=
  truckRollDefault_by_scenario "RESI cos basic eero" (by decide)

/-! ## Claim C2: inferred count is within [3, 31] -/

/-- C2.  For every request text for which no explicit count is supplied, the
count returned by `determine_test_case_count` is an integer in the inclusive
range [3, 31] (this holds for every story analysis the caller may supply). -/
theorem inferredCount_within_bounds (userStory : String) (storyAnalysis : Option StoryAnalysis) :
    3 ≤ determineTestCaseCount userStory storyAnalysis ∧
      determineTestCaseCount userStory storyAnalysis ≤ 31 := by
  unfold determineTestCaseCount
  by_cases h1 : fullCoverageKeywords.any (containsSub (pyLower userStory)) = true
  · simp [h1]
  · by_cases h2 : associationCountKeywords.any (containsSub (pyLower userStory)) = true
    · simp [h1, h2]
    · simp only [h1, h2, if_false, Bool.false_eq_true]
      have hlo : 3 ≤ complexityScore (pyLower userStory)
          ((storyAnalysis.getD (analyzeUserStory (pyLower userStory)))) := by
        unfold complexityScore
        split_ifs <;> omega
      have hhi : complexityScore (pyLower userStory)
          ((storyAnalysis.getD (analyzeUserStory (pyLower userStory)))) ≤ 20 := by
        unfold complexityScore
        split_ifs <;> omega
      split_ifs <;> omega

end QAAgent
